import Mathlib

/-!
Verification of the BasketBets odds calculator (src/basketbets.py).

The script's numeric core is embedded shallowly:
* Python numbers (ints and floats) are modelled as exact rationals for the
  data-aggregation and margin arithmetic, and as real numbers where the
  logistic function `math.exp` is involved.
* Python exceptions are modelled with `Except PyError`; a division whose
  divisor is zero produces `PyError.zeroDivisionError`, exactly where the
  Python runtime would raise `ZeroDivisionError`.
* Python 3's built-in `round` rounds half to even (banker's rounding); it is
  embedded as `pyround`.
* The I/O collaborators (`nba_api` calls in `fetch_recent_games` and
  `get_opponent_points`) are out of the numeric core: a game is modelled as
  the pair of points the team scored (the `PTS` column of its game-log row)
  and the points its opponent scored (the value `get_opponent_points`
  returns for that game), matching the spec's `GameResult` record.
-/

/-- Errors a run of the script can surface, together with the two error names
the specification's taxonomy introduces (`InsufficientDataError`,
`DegenerateProbabilityError`); the latter two never occur in the code and are
present so that the specification's claims about them can be stated. -/
inductive PyError where
  | zeroDivisionError
  | valueError
  | insufficientDataError
  | degenerateProbabilityError
deriving DecidableEq, Repr

/-- One completed game of one team: points scored by the team and points
allowed (the opponent's points, fetched by `get_opponent_points` in the
script). -/
structure GameResult where
  scored : ℚ
  allowed : ℚ
deriving DecidableEq, Repr

/-- The per-team aggregate produced by `compute_team_stats`
(src/basketbets.py lines 78-81). -/
structure TeamStats where
  avg_scored : ℚ
  avg_allowed : ℚ
  avg_diff : ℚ
deriving DecidableEq, Repr

/-- The length guard of `fetch_recent_games` (src/basketbets.py lines 31-33):
given the rows the game-log endpoint returned, raise `ValueError` when fewer
than `num_games` rows are available, else return the first `num_games` rows. -/
def fetch_recent_games (games : List GameResult) (num_games : ℕ) :
    Except PyError (List GameResult) :=
  if games.length < num_games then Except.error PyError.valueError
  else Except.ok (games.take num_games)

/-- `compute_team_stats` (src/basketbets.py lines 69-81): one pass over the
games accumulating `total_scored` and `total_allowed`, then the three averages.
The divisions by `len(games)` raise `ZeroDivisionError` when the list is
empty. -/
def compute_team_stats (games : List GameResult) : Except PyError TeamStats :=
  let totals := games.foldl
    (fun acc g => (acc.1 + g.scored, acc.2 + g.allowed)) ((0 : ℚ), (0 : ℚ))
  if games.length = 0 then Except.error PyError.zeroDivisionError
  else
    let avg_scored := totals.1 / (games.length : ℚ)
    let avg_allowed := totals.2 / (games.length : ℚ)
    Except.ok ⟨avg_scored, avg_allowed, avg_scored - avg_allowed⟩

/-- Python 3's built-in `round` to an integer: round half to even. -/
def pyround {α : Type*} [LinearOrderedField α] [FloorRing α] (x : α) : ℤ :=
  if Int.fract x < 1 / 2 then ⌊x⌋
  else if 1 / 2 < Int.fract x then ⌊x⌋ + 1
  else if ⌊x⌋ % 2 = 0 then ⌊x⌋ else ⌊x⌋ + 1

/-- `prob_to_moneyline` (src/basketbets.py lines 83-91).  In each branch the
Python division raises `ZeroDivisionError` exactly when its divisor is zero:
`1 - prob` in the favourite branch (i.e. `prob = 1`), `prob` in the underdog
branch (i.e. `prob = 0`). -/
def prob_to_moneyline {α : Type*} [LinearOrderedField α] [FloorRing α]
    (prob : α) : Except PyError ℤ :=
  if 1 / 2 ≤ prob then
    if prob = 1 then Except.error PyError.zeroDivisionError
    else Except.ok (-(pyround (prob / (1 - prob) * 100)))
  else
    if prob = 0 then Except.error PyError.zeroDivisionError
    else Except.ok (pyround ((1 - prob) / prob * 100))

instance {E A : Type*} [DecidableEq E] [DecidableEq A] :
    DecidableEq (Except E A) := fun a b =>
  match a, b with
  | .ok x, .ok y => decidable_of_iff (x = y) (by simp)
  | .error x, .error y => decidable_of_iff (x = y) (by simp)
  | .ok _, .error _ => isFalse (by simp)
  | .error _, .ok _ => isFalse (by simp)

/-- Which of the two entered teams a handicap line favours. -/
inductive Team where
  | A
  | B
deriving DecidableEq, Repr

/-- The content of the handicap line `main` prints (src/basketbets.py lines
123-128): either one team favoured by `abs(expected_margin)` points, or an
even match. -/
inductive Handicap where
  | favored (team : Team) (points : ℚ)
  | even
deriving DecidableEq, Repr

/-- The matchup-level outputs of `main`, the spec's `MatchupOdds` record. -/
structure MatchupOdds where
  expected_margin : ℚ
  handicap : Handicap
  win_prob_a : ℝ
  win_prob_b : ℝ
  moneyline_a : Except PyError ℤ
  moneyline_b : Except PyError ℤ

/-- The numeric core of `main` (src/basketbets.py lines 119-137), with the
local variables named as in the script.  The script fixes `scale = 5.0` on
line 132; it is a parameter here so the claims about it can be stated, and
every concrete instantiation below uses `5`. -/
noncomputable def matchup_odds (team1_stats team2_stats : TeamStats)
    (scale : ℝ) : MatchupOdds :=
  let expected_margin : ℚ := (team1_stats.avg_diff - team2_stats.avg_diff) / 2
  let handicap : Handicap :=
    if expected_margin > 0 then Handicap.favored Team.A |expected_margin|
    else if expected_margin < 0 then Handicap.favored Team.B |expected_margin|
    else Handicap.even
  let win_prob_team1 : ℝ := 1 / (1 + Real.exp (-(expected_margin : ℝ) / scale))
  let win_prob_team2 : ℝ := 1 - win_prob_team1
  { expected_margin := expected_margin
    handicap := handicap
    win_prob_a := win_prob_team1
    win_prob_b := win_prob_team2
    moneyline_a := prob_to_moneyline win_prob_team1
    moneyline_b := prob_to_moneyline win_prob_team2 }

/-- The spec's sample-scenario game list:
`[(100,90),(95,85),(110,100),(90,80),(105,95)]`. -/
def gamesEx : List GameResult :=
  [⟨100, 90⟩, ⟨95, 85⟩, ⟨110, 100⟩, ⟨90, 80⟩, ⟨105, 95⟩]

/-- Sample team stats with differential `10` (concrete test input). -/
def statsHigh : TeamStats := ⟨110, 100, 10⟩

/-- Sample team stats with differential `4` (concrete test input). -/
def statsLow : TeamStats := ⟨100, 96, 4⟩

lemma matchup_odds_margin (s1 s2 : TeamStats) (scale : ℝ) :
    (matchup_odds s1 s2 scale).expected_margin =
      (s1.avg_diff - s2.avg_diff) / 2 := rfl

lemma matchup_odds_handicap (s1 s2 : TeamStats) (scale : ℝ) :
    (matchup_odds s1 s2 scale).handicap =
      if (s1.avg_diff - s2.avg_diff) / 2 > 0 then
        Handicap.favored Team.A |(s1.avg_diff - s2.avg_diff) / 2|
      else if (s1.avg_diff - s2.avg_diff) / 2 < 0 then
        Handicap.favored Team.B |(s1.avg_diff - s2.avg_diff) / 2|
      else Handicap.even := rfl

lemma matchup_odds_wpa (s1 s2 : TeamStats) (scale : ℝ) :
    (matchup_odds s1 s2 scale).win_prob_a =
      1 / (1 + Real.exp (-(((s1.avg_diff - s2.avg_diff) / 2 : ℚ) : ℝ) / scale)) := rfl

lemma matchup_odds_wpb (s1 s2 : TeamStats) (scale : ℝ) :
    (matchup_odds s1 s2 scale).win_prob_b =
      1 - (matchup_odds s1 s2 scale).win_prob_a := rfl

lemma floor_le_pyround {α : Type*} [LinearOrderedField α] [FloorRing α]
    (x : α) : ⌊x⌋ ≤ pyround x := by
  unfold pyround
  split_ifs <;> omega

lemma le_pyround_of_le {α : Type*} [LinearOrderedField α] [FloorRing α]
    {x : α} {n : ℤ} (h : (n : α) ≤ x) : n ≤ pyround x :=
  le_trans (Int.le_floor.mpr h) (floor_le_pyround x)

lemma pyround_hundred {α : Type*} [LinearOrderedField α] [FloorRing α] :
    pyround (100 : α) = 100 := by
  have hf : Int.fract (100 : α) = 0 := by
    rw [show (100 : α) = ((100 : ℤ) : α) by norm_num, Int.fract_intCast]
  have hfl : ⌊(100 : α)⌋ = 100 := by
    rw [show (100 : α) = ((100 : ℤ) : α) by norm_num, Int.floor_intCast]
  unfold pyround
  rw [hf, hfl]
  norm_num

lemma foldl_totals (l : List GameResult) (a b : ℚ) :
    l.foldl (fun acc g => (acc.1 + g.scored, acc.2 + g.allowed)) (a, b) =
      (a + (l.map GameResult.scored).sum, b + (l.map GameResult.allowed).sum) := by
  induction l generalizing a b with
  | nil => simp
  | cons g t ih => simp [ih, add_assoc]

lemma compute_team_stats_eq (games : List GameResult) (hne : games ≠ []) :
    compute_team_stats games = Except.ok
      ⟨(games.map GameResult.scored).sum / (games.length : ℚ),
       (games.map GameResult.allowed).sum / (games.length : ℚ),
       (games.map GameResult.scored).sum / (games.length : ℚ) -
         (games.map GameResult.allowed).sum / (games.length : ℚ)⟩ := by
  have hlen : ¬(games.length = 0) := by simpa using hne
  simp only [compute_team_stats, foldl_totals, zero_add]
  rw [if_neg hlen]

/-- C1 (counterexample): on the empty games list, `compute_team_stats` does
not fail with the spec's `InsufficientDataError`. -/
theorem compute_team_stats_empty_not_insufficient_data :
    compute_team_stats ([] : List GameResult) ≠
      Except.error PyError.insufficientDataError := by
  simp [compute_team_stats]

/-- C1 (amended): on the empty games list, `compute_team_stats` fails with a
`ZeroDivisionError` (the division by `len(games)`); the code has no
`InsufficientDataError` — the only insufficient-data guard is in
`fetch_recent_games`, which raises `ValueError` when fewer than `num_games`
rows are available. -/
theorem compute_team_stats_empty_zero_division :
    compute_team_stats ([] : List GameResult) =
      Except.error PyError.zeroDivisionError ∧
    fetch_recent_games [] 5 = Except.error PyError.valueError :=
  ⟨rfl, rfl⟩

/-- C2 (counterexample): at probability `1`, `prob_to_moneyline` does not
fail with the spec's `DegenerateProbabilityError`. -/
theorem prob_to_moneyline_one_not_degenerate :
    prob_to_moneyline (1 : ℚ) ≠
      Except.error PyError.degenerateProbabilityError := by
  norm_num [prob_to_moneyline]
  decide

/-- C2 (amended): for every probability strictly between `0` and `1`,
`prob_to_moneyline` returns an integer, and at the degenerate probabilities
`0` and `1` it fails with an (unguarded) `ZeroDivisionError`, not with a
dedicated `DegenerateProbabilityError`. -/
theorem prob_to_moneyline_total {α : Type*} [LinearOrderedField α]
    [FloorRing α] (p : α) :
    (0 < p → p < 1 → ∃ m : ℤ, prob_to_moneyline p = Except.ok m) ∧
    (p = 0 ∨ p = 1 →
      prob_to_moneyline p = Except.error PyError.zeroDivisionError) := by
  constructor
  · intro h0 h1
    unfold prob_to_moneyline
    split_ifs with hge heq heq
    · exact absurd heq (ne_of_lt h1)
    · exact ⟨_, rfl⟩
    · exact absurd heq (ne_of_gt h0)
    · exact ⟨_, rfl⟩
  · rintro (rfl | rfl) <;> norm_num [prob_to_moneyline]

theorem prob_to_moneyline_total_witness :
    (∃ m : ℤ, prob_to_moneyline ((7 : ℚ) / 10) = Except.ok m) ∧
    prob_to_moneyline (1 : ℚ) = Except.error PyError.zeroDivisionError :=
  ⟨(prob_to_moneyline_total ((7 : ℚ) / 10)).1 (by norm_num) (by norm_num),
   (prob_to_moneyline_total (1 : ℚ)).2 (Or.inr rfl)⟩

/-- C3: for every non-empty games list, `compute_team_stats` returns the
unweighted arithmetic means of the scored and allowed points together with
their exact difference, and the result is invariant under permutation of the
games. -/
theorem compute_team_stats_mean_perm (games games' : List GameResult)
    (hne : games ≠ []) (hperm : games.Perm games') :
    compute_team_stats games = Except.ok
      ⟨(games.map GameResult.scored).sum / (games.length : ℚ),
       (games.map GameResult.allowed).sum / (games.length : ℚ),
       (games.map GameResult.scored).sum / (games.length : ℚ) -
         (games.map GameResult.allowed).sum / (games.length : ℚ)⟩ ∧
    compute_team_stats games' = compute_team_stats games := by
  refine ⟨compute_team_stats_eq games hne, ?_⟩
  have hne' : games' ≠ [] := by
    intro h
    exact hne (List.Perm.eq_nil (h ▸ hperm))
  rw [compute_team_stats_eq games' hne', compute_team_stats_eq games hne,
    ← (hperm.map GameResult.scored).sum_eq,
    ← (hperm.map GameResult.allowed).sum_eq, ← hperm.length_eq]

theorem compute_team_stats_mean_perm_witness :
    compute_team_stats gamesEx = Except.ok
      ⟨(gamesEx.map GameResult.scored).sum / (gamesEx.length : ℚ),
       (gamesEx.map GameResult.allowed).sum / (gamesEx.length : ℚ),
       (gamesEx.map GameResult.scored).sum / (gamesEx.length : ℚ) -
         (gamesEx.map GameResult.allowed).sum / (gamesEx.length : ℚ)⟩ ∧
    compute_team_stats gamesEx.reverse = compute_team_stats gamesEx :=
  compute_team_stats_mean_perm gamesEx gamesEx.reverse (by simp [gamesEx])
    (List.reverse_perm gamesEx).symm

/-- C4: the expected margin of a matchup is half the difference of the two
teams' average differentials, the divisor `2` being a fixed constant of the
model, independent of the data and of the scale parameter. -/
theorem matchup_odds_expected_margin_halved (s1 s2 : TeamStats) (scale : ℝ) :
    (matchup_odds s1 s2 scale).expected_margin =
      (s1.avg_diff - s2.avg_diff) / 2 := rfl

/-- C5: the two win probabilities of a matchup sum to exactly `1`, the second
being `1` minus the first by construction. -/
theorem matchup_odds_win_prob_sum_one (s1 s2 : TeamStats) (scale : ℝ) :
    (matchup_odds s1 s2 scale).win_prob_a +
      (matchup_odds s1 s2 scale).win_prob_b = 1 := by
  rw [matchup_odds_wpb]
  ring

/-- C6: the handicap line is an exact three-way branch on the expected
margin: a positive margin favours team A by the margin, a negative margin
favours team B by its absolute value, and a margin of exactly zero yields an
even match with no favourite. -/
theorem matchup_odds_handicap_trichotomy (s1 s2 : TeamStats) (scale : ℝ) :
    (0 < (matchup_odds s1 s2 scale).expected_margin →
      (matchup_odds s1 s2 scale).handicap =
        Handicap.favored Team.A ((matchup_odds s1 s2 scale).expected_margin)) ∧
    ((matchup_odds s1 s2 scale).expected_margin < 0 →
      (matchup_odds s1 s2 scale).handicap =
        Handicap.favored Team.B (-(matchup_odds s1 s2 scale).expected_margin)) ∧
    ((matchup_odds s1 s2 scale).expected_margin = 0 →
      (matchup_odds s1 s2 scale).handicap = Handicap.even) := by
  rw [matchup_odds_handicap, matchup_odds_margin]
  refine ⟨fun h => ?_, fun h => ?_, fun h => ?_⟩
  · rw [if_pos h, abs_of_pos h]
  · rw [if_neg (not_lt.mpr h.le), if_pos h, abs_of_neg h]
  · rw [h]
    norm_num

theorem matchup_odds_handicap_trichotomy_witness :
    (matchup_odds statsHigh statsLow 5).handicap =
      Handicap.favored Team.A
        ((matchup_odds statsHigh statsLow 5).expected_margin) ∧
    (matchup_odds statsLow statsHigh 5).handicap =
      Handicap.favored Team.B
        (-((matchup_odds statsLow statsHigh 5).expected_margin)) ∧
    (matchup_odds statsHigh statsHigh 5).handicap = Handicap.even :=
  ⟨(matchup_odds_handicap_trichotomy statsHigh statsLow 5).1
      (by rw [matchup_odds_margin]; norm_num [statsHigh, statsLow]),
   (matchup_odds_handicap_trichotomy statsLow statsHigh 5).2.1
      (by rw [matchup_odds_margin]; norm_num [statsHigh, statsLow]),
   (matchup_odds_handicap_trichotomy statsHigh statsHigh 5).2.2
      (by rw [matchup_odds_margin]; norm_num)⟩

/-- C7: for every probability strictly between `0` and `1`,
`prob_to_moneyline` returns `-round(p/(1-p)*100)`, a non-positive integer,
when `p ≥ 1/2`, and `round((1-p)/p*100)`, a positive integer, when
`p < 1/2`. -/
theorem prob_to_moneyline_sign {α : Type*} [LinearOrderedField α]
    [FloorRing α] (p : α) (h0 : 0 < p) (h1 : p < 1) :
    (1 / 2 ≤ p →
      prob_to_moneyline p = Except.ok (-(pyround (p / (1 - p) * 100))) ∧
      -(pyround (p / (1 - p) * 100)) ≤ 0) ∧
    (p < 1 / 2 →
      prob_to_moneyline p = Except.ok (pyround ((1 - p) / p * 100)) ∧
      0 < pyround ((1 - p) / p * 100)) := by
  constructor
  · intro hp
    have hpos : (0 : α) < 1 - p := by linarith
    have h1le : (1 : α) ≤ p / (1 - p) := by
      rw [le_div_iff₀ hpos]
      linarith
    have h100 : (100 : α) ≤ p / (1 - p) * 100 := by nlinarith
    have hpy : (100 : ℤ) ≤ pyround (p / (1 - p) * 100) :=
      le_pyround_of_le (by exact_mod_cast h100)
    refine ⟨?_, by omega⟩
    unfold prob_to_moneyline
    rw [if_pos hp, if_neg (ne_of_lt h1)]
  · intro hp
    have h1le : (1 : α) ≤ (1 - p) / p := by
      rw [le_div_iff₀ h0]
      linarith
    have h100 : (100 : α) ≤ (1 - p) / p * 100 := by nlinarith
    have hpy : (100 : ℤ) ≤ pyround ((1 - p) / p * 100) :=
      le_pyround_of_le (by exact_mod_cast h100)
    refine ⟨?_, by omega⟩
    unfold prob_to_moneyline
    rw [if_neg (not_le.mpr hp), if_neg (ne_of_gt h0)]

theorem prob_to_moneyline_sign_witness :
    (prob_to_moneyline ((7 : ℚ) / 10) =
        Except.ok (-(pyround ((7 : ℚ) / 10 / (1 - (7 : ℚ) / 10) * 100))) ∧
      -(pyround ((7 : ℚ) / 10 / (1 - (7 : ℚ) / 10) * 100)) ≤ 0) ∧
    (prob_to_moneyline ((3 : ℚ) / 10) =
        Except.ok (pyround ((1 - (3 : ℚ) / 10) / ((3 : ℚ) / 10) * 100)) ∧
      0 < pyround ((1 - (3 : ℚ) / 10) / ((3 : ℚ) / 10) * 100)) :=
  ⟨(prob_to_moneyline_sign ((7 : ℚ) / 10) (by norm_num) (by norm_num)).1
      (by norm_num),
   (prob_to_moneyline_sign ((3 : ℚ) / 10) (by norm_num) (by norm_num)).2
      (by norm_num)⟩

/-- C8: swapping the two teams negates the expected margin. -/
theorem matchup_odds_margin_antisymm (s1 s2 : TeamStats) (scale : ℝ) :
    (matchup_odds s1 s2 scale).expected_margin =
      -((matchup_odds s2 s1 scale).expected_margin) := by
  rw [matchup_odds_margin, matchup_odds_margin]
  ring

/-- C9: with the second team's stats and a positive scale held fixed, the
first team's win probability is non-decreasing in its average differential. -/
theorem matchup_odds_win_prob_mono (s1 s1' s2 : TeamStats) (scale : ℝ)
    (hscale : 0 < scale) (hd : s1.avg_diff ≤ s1'.avg_diff) :
    (matchup_odds s1 s2 scale).win_prob_a ≤
      (matchup_odds s1' s2 scale).win_prob_a := by
  rw [matchup_odds_wpa, matchup_odds_wpa]
  have hm : (((s1.avg_diff - s2.avg_diff) / 2 : ℚ) : ℝ) ≤
      (((s1'.avg_diff - s2.avg_diff) / 2 : ℚ) : ℝ) := by
    have : (s1.avg_diff - s2.avg_diff) / 2 ≤ (s1'.avg_diff - s2.avg_diff) / 2 := by
      linarith
    exact_mod_cast this
  have hexp : Real.exp (-(((s1'.avg_diff - s2.avg_diff) / 2 : ℚ) : ℝ) / scale) ≤
      Real.exp (-(((s1.avg_diff - s2.avg_diff) / 2 : ℚ) : ℝ) / scale) := by
    apply Real.exp_le_exp.mpr
    apply div_le_div_of_nonneg_right _ hscale.le
    exact neg_le_neg hm
  have hpos : (0 : ℝ) <
      1 + Real.exp (-(((s1'.avg_diff - s2.avg_diff) / 2 : ℚ) : ℝ) / scale) := by
    positivity
  exact one_div_le_one_div_of_le hpos (by linarith)

theorem matchup_odds_win_prob_mono_witness :
    (matchup_odds statsLow statsLow 5).win_prob_a ≤
      (matchup_odds statsHigh statsLow 5).win_prob_a :=
  matchup_odds_win_prob_mono statsLow statsHigh statsLow 5 (by norm_num)
    (by norm_num [statsLow, statsHigh])

/-- C10: for every probability strictly between `0` and `1`, the moneyline
returned by `prob_to_moneyline` has absolute value at least `100`; in
particular, at the exact tie `p = 1/2` the favourite branch applies and the
moneyline is `-100`. -/
theorem prob_to_moneyline_magnitude {α : Type*} [LinearOrderedField α]
    [FloorRing α] (p : α) (h0 : 0 < p) (h1 : p < 1) :
    (∃ m : ℤ, prob_to_moneyline p = Except.ok m ∧ 100 ≤ |m|) ∧
    prob_to_moneyline ((1 : α) / 2) = Except.ok (-100) := by
  constructor
  · rcases le_or_lt (1 / 2 : α) p with hp | hp
    · have hpos : (0 : α) < 1 - p := by linarith
      have h1le : (1 : α) ≤ p / (1 - p) := by
        rw [le_div_iff₀ hpos]
        linarith
      have h100 : (100 : α) ≤ p / (1 - p) * 100 := by nlinarith
      have hpy : (100 : ℤ) ≤ pyround (p / (1 - p) * 100) :=
        le_pyround_of_le (by exact_mod_cast h100)
      refine ⟨-(pyround (p / (1 - p) * 100)), ?_, ?_⟩
      · unfold prob_to_moneyline
        rw [if_pos hp, if_neg (ne_of_lt h1)]
      · rw [abs_neg, abs_of_nonneg (by linarith)]
        exact hpy
    · have h1le : (1 : α) ≤ (1 - p) / p := by
        rw [le_div_iff₀ h0]
        linarith
      have h100 : (100 : α) ≤ (1 - p) / p * 100 := by nlinarith
      have hpy : (100 : ℤ) ≤ pyround ((1 - p) / p * 100) :=
        le_pyround_of_le (by exact_mod_cast h100)
      refine ⟨pyround ((1 - p) / p * 100), ?_, ?_⟩
      · unfold prob_to_moneyline
        rw [if_neg (not_le.mpr hp), if_neg (ne_of_gt h0)]
      · rw [abs_of_nonneg (by linarith)]
        exact hpy
  · unfold prob_to_moneyline
    rw [if_pos le_rfl, if_neg (by norm_num : (1 : α) / 2 ≠ 1)]
    have h : (1 : α) / 2 / (1 - 1 / 2) * 100 = 100 := by norm_num
    rw [h, pyround_hundred]

theorem prob_to_moneyline_magnitude_witness :
    (∃ m : ℤ, prob_to_moneyline ((7 : ℚ) / 10) = Except.ok m ∧ 100 ≤ |m|) ∧
    prob_to_moneyline ((1 : ℚ) / 2) = Except.ok (-100) :=
  prob_to_moneyline_magnitude ((7 : ℚ) / 10) (by norm_num) (by norm_num)
